import Mathlib

/-!
Shallow embedding of the conversion-server repository (server.js, server2.js,
the BullMQ worker file, and the build scripts) for checking its specification.

The embedding translates the JavaScript control flow into pure Lean functions:
the filesystem is passed in as an explicit existence predicate, wall-clock
timestamps are explicit `Int`/`Nat` arguments, and JS objects become
structures whose optional fields are `Option`.
-/

namespace Converter

/-- JS `a || b` on strings coming from a request body: `none` models an absent
field, and the empty string is falsy in JS, so both fall back to the default. -/
def jsOr (v : Option String) (d : String) : String :=
  match v with
  | some s => if s = "" then d else s
  | none => d

/-- JS `String.prototype.toLowerCase()`, as per-character lowering. -/
def jsToLower (s : String) : String := (s.toList.map Char.toLower).asString

/-- Models `path.resolve(__dirname, 'uploads')` from server.js / server2.js:
the shared uploads storage area. Kept abstract as a fixed root string. -/
def uploadDir : String := "uploads"

/-- Models `path.join(uploadDir, filename)`. -/
def joinUpload (f : String) : String := uploadDir ++ "/" ++ f

/-! ## File Lifecycle Manager (server.js lines 28–91, server2.js lines 61–96)

`deletionTimers` is a `Map` keyed by path; we model the set of keys as a list
of paths (the timer objects themselves carry no information the claims need).
The ambient filesystem is an existence predicate `ex : String → Bool`. -/

/-- The set of paths with an outstanding scheduled deletion
(the keys of the JS `deletionTimers` map). -/
abbrev SchedMap := List String

/-- `scheduleDeletion(filePath)` from server.js lines 30–53 (identical guard
structure in server2.js lines 64–75): return unchanged when the path is falsy
(empty string), when a timer is already scheduled for it, or when no file
currently exists at the path; otherwise record a timer for the path. -/
def scheduleDeletion (ex : String → Bool) (m : SchedMap) (filePath : String) : SchedMap :=
  if filePath = "" then m
  else if m.contains filePath then m
  else if ex filePath = false then m
  else filePath :: m

/-- Default `FILE_TTL_MS` (5 minutes), server.js line 24 / server2.js line 59. -/
def FILE_TTL_MS : Int := 5 * 60 * 1000

/-- The fields of `fs.stat` that the periodic sweep reads. -/
structure FileStat where
  isFile : Bool
  mtimeMs : Int
  ctimeMs : Int
  deriving Repr, DecidableEq

/-- The per-file deletion decision of one run of `scanAndCleanup`
(server.js lines 60–77, server2.js lines 82–90): delete a regular file whose
age, measured from the newer of `mtimeMs` and `ctimeMs`, exceeds the TTL,
unless a deletion timer is already scheduled for its path. -/
def sweepDeletes (ttl now : Int) (m : SchedMap) (filePath : String) (st : FileStat) : Bool :=
  st.isFile && decide (now - max st.mtimeMs st.ctimeMs > ttl) && !(m.contains filePath)

/-- One run of `scanAndCleanup` over a directory listing: the entries that
survive the sweep (every entry for which `sweepDeletes` holds is unlinked). -/
def scanAndCleanup (ttl now : Int) (m : SchedMap) (entries : List (String × FileStat)) :
    List (String × FileStat) :=
  entries.filter (fun e => !(sweepDeletes ttl now m e.1 e.2))

/-! ## Process Execution Engine, synchronous variant
(`executeTask`'s `close` handler, server.js lines 149–178) -/

/-- The client-visible terminal payload assembled by `executeTask` on process
close: the `conversion-finished` data on success, or the `conversion-error`
detail string on failure. -/
structure ExecResult where
  status : String
  downloadUrl : Option String
  fileSize : Option Int
  errorDetail : Option String
  deriving Repr, DecidableEq

/-- The `python.on('close', code => ...)` handler of `executeTask`
(server.js lines 149–178). Inputs: filesystem `ex`, file-size reader `sz`,
scheduling map `m`, the job's `inputPaths`, the resolved `outputPath` and its
`outputFilename`, the process `code`, and the accumulated `stderrBuf`.
Returns the terminal payload together with the updated scheduling map.
All input paths are scheduled for deletion first, for every exit code. -/
def executeTaskClose (ex : String → Bool) (sz : String → Int) (m : SchedMap)
    (inputPaths : List String) (outputPath outputFilename : String)
    (code : Int) (stderrBuf : String) : ExecResult × SchedMap :=
  let m1 := inputPaths.foldl (scheduleDeletion ex) m
  if code = 0 then
    let size := if ex outputPath then sz outputPath else 0
    ({ status := "success"
       downloadUrl := some ("/download/" ++ outputFilename)
       fileSize := some size
       errorDetail := none },
     scheduleDeletion ex m1 outputPath)
  else
    let details := if stderrBuf = "" then "No stderr output captured." else stderrBuf
    let m2 := if ex outputPath then scheduleDeletion ex m1 outputPath else m1
    ({ status := "failure"
       downloadUrl := none
       fileSize := none
       errorDetail := some ("Engine failed to process. Details: " ++ details.take 1000) },
     m2)

/-! ## Worker-side Process Execution (`runPython`, worker file lines 20–53)

`runPython` accumulates stdout into `fullOutput`, stderr into `stderrOutput`,
and on close resolves (exit code 0) or rejects. On success it runs the regex
`/won in ([\d\.]+)s/` over the accumulated stdout; we embed that regex's
leftmost-match semantics directly on the character list. -/

/-- Character class `[\d\.]` of the duration regex. -/
def isDurChar (c : Char) : Bool := c.isDigit || c = '.'

/-- Greedy `[\d\.]+` run: the maximal leading run of duration characters and
the remainder. -/
def takeDurRun : List Char → List Char × List Char
  | [] => ([], [])
  | c :: cs =>
    if isDurChar c then
      let (r, rest) := takeDurRun cs
      (c :: r, rest)
    else ([], c :: cs)

/-- Strip a literal token from the front of the input, if it is there. -/
def stripToken : List Char → List Char → Option (List Char)
  | [], cs => some cs
  | _ :: _, [] => none
  | t :: ts, c :: cs => if c = t then stripToken ts cs else none

/-- Attempt to match `won in ([\d\.]+)s` at the current position, returning the
captured group. Within one position the greedy run is the only candidate: any
shorter run is followed by a duration character, never by `s`. -/
def matchWonInAt (cs : List Char) : Option (List Char) :=
  match stripToken "won in ".toList cs with
  | none => none
  | some rest =>
    let (run, rest') := takeDurRun rest
    if run.isEmpty then none
    else
      match rest' with
      | 's' :: _ => some run
      | _ => none

/-- Leftmost match of `fullOutput.match(/won in ([\d\.]+)s/)`: try each start
position from the left and return the first captured group. -/
def wonInMatch : List Char → Option (List Char)
  | [] => none
  | c :: cs =>
    match matchWonInAt (c :: cs) with
    | some r => some r
    | none => wonInMatch cs

/-- The settled state of the `runPython` promise. `resolved` carries the object
`{ duration }`; the duration field is always a string (never absent), because
the code writes `timeMatch ? timeMatch[1] : "0.00"`. `rejected` carries the
`Error` message. -/
inductive PyOutcome where
  | resolved (duration : String)
  | rejected (message : String)
  deriving Repr, DecidableEq

/-- The `python.on('close', code => ...)` handler of `runPython`
(worker file lines 41–51). -/
def runPythonClose (code : Int) (fullOutput stderrOutput : String) : PyOutcome :=
  if code = 0 then
    .resolved (((wonInMatch fullOutput.toList).map List.asString).getD "0.00")
  else
    .rejected ("Exit code " ++ toString code ++ ": " ++ stderrOutput.take 200)

/-! ## Worker routing and result (worker file lines 60–157) -/

/-- One resolved engine invocation: the script, its positional argv, and the
output filename that the download reference will use. -/
structure TaskSpec where
  script : String
  args : List String
  outputFilename : String
  deriving Repr, DecidableEq

/-- The `compress-pdf` case of the worker's job routing table
(worker file lines 102–106). -/
def workerCompressPdf (inputPath grayscale dpi : String) (ts : Nat) : TaskSpec :=
  { script := "compressor.py"
    args := [inputPath, joinUpload ("compressed_" ++ toString ts ++ ".pdf"),
             grayscale, "true", dpi]
    outputFilename := "compressed_" ++ toString ts ++ ".pdf" }

/-- The terminal object a worker job returns on success
(worker file lines 144–152). -/
structure WorkerResult where
  status : String
  downloadUrl : String
  duration : String
  file : String
  deriving Repr, DecidableEq

/-- A completed job's return value: `{ socketId, result }`. -/
structure WorkerReturn where
  socketId : Option String
  result : WorkerResult
  deriving Repr, DecidableEq

/-- The successful return value built by the worker processor
(worker file lines 144–152). -/
def workerSuccessReturn (socketId : Option String) (outputFilename duration : String) :
    WorkerReturn :=
  { socketId
    result := { status := "success"
                downloadUrl := "/download/" ++ outputFilename
                duration
                file := outputFilename } }

/-- The progress update the worker's catch branch publishes before rethrowing
(worker file lines 153–156): `{ message: "Error: " + err.message, socketId }`. -/
def workerCatchMessage (errMessage : String) : String := "Error: " ++ errMessage

/-! ## Progress/Result Event Bridge (server2.js lines 36–50)

The three `queueEvents.on(...)` listeners. `io.to(socketId).emit(...)` targets
the single channel registered under the token; we record each emitted forward
as a (token, event-name) pair. A `failed` queue event carries only
`{jobId, failedReason}` and its listener only logs. -/

/-- A queue-level event as seen by the bridge. -/
inductive QueueEvent where
  | completed (socketId : Option String) (result : WorkerResult)
  | progress (socketId : Option String) (message : String)
  | failed (failedReason : String)
  deriving Repr, DecidableEq

/-- One message forwarded to a client channel. -/
structure Forward where
  socketId : String
  eventName : String
  deriving Repr, DecidableEq

/-- The bridge's reaction to one queue event (server2.js lines 36–50):
`completed` forwards `conversion-finished` when `returnvalue.socketId` is
truthy, `progress` forwards `conversion-status` when `data.socketId` is
truthy, and `failed` only writes to the server log. -/
def bridge : QueueEvent → List Forward
  | .completed sid _ =>
    match sid with
    | some s => if s = "" then [] else [{ socketId := s, eventName := "conversion-finished" }]
    | none => []
  | .progress sid _ =>
    match sid with
    | some s => if s = "" then [] else [{ socketId := s, eventName := "conversion-status" }]
    | none => []
  | .failed _ => []

/-! ## HTTP gateway handlers -/

/-- The request-shaped inputs the `/convert` and `/compress-pdf` handlers
read: whether multer stored a file, its path, and the body fields used. -/
structure ConvertRequest where
  hasFile : Bool
  filePath : String
  tool : Option String
  secretKey : Option String
  socketId : Option String
  grayscale : Option String
  dpi : Option String
  deriving Repr, DecidableEq

/-- Outcome of the synchronous server's `/convert` handler
(server.js lines 278–302): a 400 rejection, or an `executeTask` invocation. -/
inductive SyncConvertOutcome where
  | badRequest (error : String)
  | execute (spec : TaskSpec)
  deriving Repr, DecidableEq

/-- server.js `/convert` (lines 278–302): reject when no file was uploaded,
then reject with "Missing encryption key" when the secret key is falsy,
otherwise run `convert.py` with argv
`[inputPath, tool, outputPath, secretKey]`. -/
def convertHandlerSync (r : ConvertRequest) (ts : Nat) : SyncConvertOutcome :=
  if r.hasFile = false then .badRequest "No file uploaded"
  else
    let tool := jsToLower (jsOr r.tool "pdf2doc")
    let secretKey := jsOr r.secretKey ""
    let outputFilename := "converted_" ++ toString ts ++ ".docx"
    if secretKey = "" then .badRequest "Missing encryption key"
    else .execute { script := "convert.py"
                    args := [r.filePath, tool, joinUpload outputFilename, secretKey]
                    outputFilename }

/-- The job record `conversionQueue.add('pdf-to-doc', ...)` enqueues
(server2.js lines 202–207). -/
structure PdfToDocJob where
  inputPath : String
  tool : String
  secretKey : String
  socketId : Option String
  deriving Repr, DecidableEq

/-- Outcome of the queue gateway's `/convert` handler: a 400 rejection, or a
job enqueued (with the input path scheduled for deletion) and a
`{status:"queued"}` response. -/
inductive GatewayConvertOutcome where
  | badRequest (error : String)
  | queued (job : PdfToDocJob)
  deriving Repr, DecidableEq

/-- server2.js `/convert` (lines 200–210): the only validation is the file
check; the job is enqueued with `secretKey: req.body.secretKey || ''` —
an empty or absent secret key is not rejected. -/
def convertHandlerQueued (r : ConvertRequest) : GatewayConvertOutcome :=
  if r.hasFile = false then .badRequest "No file"
  else .queued { inputPath := r.filePath
                 tool := jsToLower (jsOr r.tool "pdf2doc")
                 secretKey := jsOr r.secretKey ""
                 socketId := r.socketId }

/-- server.js `/compress-pdf` (lines 333–352): `none` when no file was
uploaded, otherwise the `executeTask` invocation with argv
`[inputPath, outputPath, grayscale, 'true', dpi]`. -/
def compressPdfHandler (r : ConvertRequest) (ts : Nat) : Option TaskSpec :=
  if r.hasFile = false then none
  else
    let outputFilename := "compressed_" ++ toString ts ++ ".pdf"
    let grayscale := jsOr r.grayscale "false"
    let dpi := jsOr r.dpi "150"
    some { script := "compressor.py"
           args := [r.filePath, joinUpload outputFilename, grayscale, "true", dpi]
           outputFilename }

/-- The job record `conversionQueue.add('compress-pdf', ...)` enqueues
(server2.js lines 274–279). -/
structure CompressPdfJob where
  inputPath : String
  socketId : Option String
  grayscale : String
  dpi : String
  deriving Repr, DecidableEq

/-- server2.js `/compress-pdf` (lines 272–282): `none` when no file was
uploaded, otherwise the enqueued job with defaulted options. -/
def compressPdfGateway (r : ConvertRequest) : Option CompressPdfJob :=
  if r.hasFile = false then none
  else some { inputPath := r.filePath
              socketId := r.socketId
              grayscale := jsOr r.grayscale "false"
              dpi := jsOr r.dpi "150" }

/-! ## Helper lemmas -/

/-- Scheduling one path never removes another path's timer. -/
theorem contains_scheduleDeletion_mono (ex : String → Bool) (m : SchedMap) (p q : String)
    (h : m.contains q = true) : (scheduleDeletion ex m p).contains q = true := by
  unfold scheduleDeletion
  split_ifs with h1 h2 h3
  · exact h
  · exact h
  · exact h
  · simp only [List.contains_cons, Bool.or_eq_true]
    exact Or.inr h

/-- A nonempty path whose file exists is scheduled after `scheduleDeletion`. -/
theorem contains_scheduleDeletion_self (ex : String → Bool) (m : SchedMap) (p : String)
    (hp : p ≠ "") (hex : ex p = true) : (scheduleDeletion ex m p).contains p = true := by
  unfold scheduleDeletion
  split_ifs with h1 h2 h3
  · exact absurd h1 hp
  · exact h2
  · rw [hex] at h3; exact absurd h3 (by simp)
  · simp [List.contains_cons]

/-- Folding `scheduleDeletion` over a list of paths never removes a timer. -/
theorem contains_foldl_scheduleDeletion_mono (ex : String → Bool) (l : List String)
    (m : SchedMap) (q : String) (h : m.contains q = true) :
    (l.foldl (scheduleDeletion ex) m).contains q = true := by
  induction l generalizing m with
  | nil => exact h
  | cons a l ih =>
    exact ih (scheduleDeletion ex m a) (contains_scheduleDeletion_mono ex m a q h)

/-- Every nonempty, existing path of the list is scheduled after the fold. -/
theorem contains_foldl_scheduleDeletion_self (ex : String → Bool) (l : List String) :
    ∀ (m : SchedMap) (p : String), p ∈ l → p ≠ "" → ex p = true →
    (l.foldl (scheduleDeletion ex) m).contains p = true := by
  induction l with
  | nil => intro m p hl _ _; cases hl
  | cons a l ih =>
    intro m p hl hp hex
    rcases List.mem_cons.mp hl with rfl | hmem
    · exact contains_foldl_scheduleDeletion_mono ex l _ p
        (contains_scheduleDeletion_self ex m p hp hex)
    · exact ih (scheduleDeletion ex m a) p hmem hp hex

/-- Stripping a literal token from the front of `token ++ rest` yields `rest`. -/
theorem stripToken_append (ts rest : List Char) : stripToken ts (ts ++ rest) = some rest := by
  induction ts with
  | nil => rfl
  | cons t ts ih => simpa [stripToken] using ih

/-- The greedy `[\d\.]+` run stops exactly at the first non-duration
character. -/
theorem takeDurRun_append (l r : List Char) (hall : ∀ c ∈ l, isDurChar c = true)
    (hr : ∀ c, r.head? = some c → isDurChar c = false) :
    takeDurRun (l ++ r) = (l, r) := by
  induction l with
  | nil =>
    cases r with
    | nil => rfl
    | cons c cs =>
      have := hr c rfl
      simp [takeDurRun, this]
  | cons c cs ih =>
    have hc : isDurChar c = true := hall c (List.mem_cons_self c cs)
    have htail : ∀ x ∈ cs, isDurChar x = true := fun x hx => hall x (List.mem_cons_of_mem c hx)
    simp [takeDurRun, hc, ih htail]

/-- If the regex matches at the very first position, the scan returns that
match. -/
theorem wonInMatch_of_matchWonInAt (cs : List Char) (r : List Char)
    (h : matchWonInAt cs = some r) : wonInMatch cs = some r := by
  cases cs with
  | nil => simp [matchWonInAt, stripToken] at h
  | cons c cs => simp [wonInMatch, h]

/-! ## Claim theorems -/

/-- C1: when the engine process exits with code 0 and the resolved output
artifact does not exist on disk, `executeTask` still reports status
`success` with `fileSize 0`, and never re-classifies the job as a failure. -/
theorem zero_exit_missing_artifact_success (ex : String → Bool) (sz : String → Int)
    (m : SchedMap) (ins : List String) (outPath outName stderrBuf : String)
    (hmiss : ex outPath = false) :
    (executeTaskClose ex sz m ins outPath outName 0 stderrBuf).1.status = "success"
    ∧ (executeTaskClose ex sz m ins outPath outName 0 stderrBuf).1.fileSize = some 0
    ∧ (executeTaskClose ex sz m ins outPath outName 0 stderrBuf).1.status ≠ "failure" := by
  refine ⟨?_, ?_, ?_⟩ <;> simp [executeTaskClose, hmiss]

/-- Witness for C1 at a concrete job: no file exists, one input path, exit
code 0. -/
theorem zero_exit_missing_artifact_success_witness :
    (fun _ : String => false) "uploads/out_1.pdf" = false
    ∧ ((executeTaskClose (fun _ => false) (fun _ => 0) [] ["uploads/in_1.pdf"]
          "uploads/out_1.pdf" "out_1.pdf" 0 "").1.status = "success"
       ∧ (executeTaskClose (fun _ => false) (fun _ => 0) [] ["uploads/in_1.pdf"]
          "uploads/out_1.pdf" "out_1.pdf" 0 "").1.fileSize = some 0
       ∧ (executeTaskClose (fun _ => false) (fun _ => 0) [] ["uploads/in_1.pdf"]
          "uploads/out_1.pdf" "out_1.pdf" 0 "").1.status ≠ "failure") :=
  ⟨rfl, zero_exit_missing_artifact_success (fun _ => false) (fun _ => 0) []
    ["uploads/in_1.pdf"] "uploads/out_1.pdf" "out_1.pdf" "" rfl⟩

/-- C5: `scheduleDeletion` is idempotent (a second call for an
already-scheduled path is a no-op, so at most one timer exists per path), and
a path whose file does not exist is never added to the scheduling map. -/
theorem scheduleDeletion_idempotent_and_guarded (ex : String → Bool) (m : SchedMap)
    (p : String) (h : m.count p ≤ 1) :
    scheduleDeletion ex (scheduleDeletion ex m p) p = scheduleDeletion ex m p
    ∧ (scheduleDeletion ex m p).count p ≤ 1
    ∧ (ex p = false → scheduleDeletion ex m p = m) := by
  by_cases hp : p = ""
  · subst hp
    exact ⟨by simp [scheduleDeletion], by simpa [scheduleDeletion] using h,
      fun _ => by simp [scheduleDeletion]⟩
  · by_cases hc : m.contains p = true
    · have hcm : p ∈ m := by simpa using hc
      exact ⟨by simp [scheduleDeletion, hp, hcm],
        by simpa [scheduleDeletion, hp, hcm] using h,
        fun _ => by simp [scheduleDeletion, hp, hcm]⟩
    · have hpm : p ∉ m := by simpa using hc
      have hzero : m.count p = 0 := List.count_eq_zero.mpr hpm
      by_cases hex : ex p = false
      · exact ⟨by simp [scheduleDeletion, hp, hpm, hex],
          by simpa [scheduleDeletion, hp, hpm, hex] using h,
          fun _ => by simp [scheduleDeletion, hp, hpm, hex]⟩
      · have hex' : ex p = true := by revert hex; cases ex p <;> simp
        refine ⟨?_, ?_, fun hfalse => absurd hfalse hex⟩
        · simp [scheduleDeletion, hp, hpm, hex']
        · simp [scheduleDeletion, hp, hpm, hex', List.count_cons, hzero]

/-- Witness for C5 at a concrete path with an empty scheduling map. -/
theorem scheduleDeletion_idempotent_and_guarded_witness :
    ([] : SchedMap).count "uploads/a.pdf" ≤ 1
    ∧ (scheduleDeletion (fun _ => true)
          (scheduleDeletion (fun _ => true) [] "uploads/a.pdf") "uploads/a.pdf"
        = scheduleDeletion (fun _ => true) [] "uploads/a.pdf"
       ∧ (scheduleDeletion (fun _ => true) [] "uploads/a.pdf").count "uploads/a.pdf" ≤ 1
       ∧ ((fun _ : String => true) "uploads/a.pdf" = false →
            scheduleDeletion (fun _ => true) [] "uploads/a.pdf" = [])) :=
  ⟨by decide, scheduleDeletion_idempotent_and_guarded (fun _ => true) [] "uploads/a.pdf"
    (by decide)⟩

/-- The sweep's per-file deletion test, as a proposition. -/
theorem sweepDeletes_eq_true_iff (ttl now : Int) (m : SchedMap) (p : String)
    (st : FileStat) :
    sweepDeletes ttl now m p st = true ↔
      (st.isFile = true ∧ now - max st.mtimeMs st.ctimeMs > ttl
        ∧ m.contains p = false) := by
  unfold sweepDeletes
  cases hif : st.isFile <;> cases hcon : m.contains p <;> simp [hif, hcon]

/-- C6 counterexample: the sweep's deletion test is NOT "modification time
older than TTL and not scheduled": a regular file with `mtimeMs 0` (ancient
modification time) but recent `ctimeMs 1000000` is kept by the sweep at
`now = 1000000` even though no timer is scheduled for it. -/
theorem sweep_mtime_only_cex :
    ¬ (∀ (now : Int) (m : SchedMap) (p : String) (st : FileStat),
        st.isFile = true →
        (sweepDeletes FILE_TTL_MS now m p st = true ↔
          (now - st.mtimeMs > FILE_TTL_MS ∧ m.contains p = false))) := by
  intro h
  have h2 := (h 1000000 [] "uploads/old.pdf"
    { isFile := true, mtimeMs := 0, ctimeMs := 1000000 } rfl).mpr
    ⟨by decide, by decide⟩
  exact absurd h2 (by decide)

/-- C6 (amended): one sweep run removes an entry exactly when it is a regular
file, its age measured from the newer of `mtimeMs` and `ctimeMs` exceeds the
TTL, and its path is not in the scheduling map; younger files and scheduled
files survive. -/
theorem sweep_deletes_iff (ttl now : Int) (m : SchedMap)
    (entries : List (String × FileStat)) (p : String) (st : FileStat)
    (h : (p, st) ∈ entries) :
    ((p, st) ∉ scanAndCleanup ttl now m entries ↔
      (st.isFile = true ∧ now - max st.mtimeMs st.ctimeMs > ttl
        ∧ m.contains p = false)) := by
  have hsurv : ((p, st) ∈ scanAndCleanup ttl now m entries) ↔
      sweepDeletes ttl now m p st = false := by
    simp [scanAndCleanup, List.mem_filter, h]
  rw [hsurv, ← sweepDeletes_eq_true_iff]
  simp

/-- Witness for C6 (amended) at a concrete one-entry directory: a stale,
unscheduled regular file does not survive the sweep. -/
theorem sweep_deletes_iff_witness :
    (("uploads/stale.pdf", ({ isFile := true, mtimeMs := 0, ctimeMs := 0 } : FileStat))
        ∈ [("uploads/stale.pdf", ({ isFile := true, mtimeMs := 0, ctimeMs := 0 } : FileStat))])
    ∧ (("uploads/stale.pdf", ({ isFile := true, mtimeMs := 0, ctimeMs := 0 } : FileStat))
          ∉ scanAndCleanup FILE_TTL_MS 1000000 []
              [("uploads/stale.pdf", ({ isFile := true, mtimeMs := 0, ctimeMs := 0 } : FileStat))] ↔
        (({ isFile := true, mtimeMs := 0, ctimeMs := 0 } : FileStat).isFile = true
          ∧ (1000000 : Int) - max (0 : Int) (0 : Int) > FILE_TTL_MS
          ∧ ([] : SchedMap).contains "uploads/stale.pdf" = false)) :=
  ⟨by decide, sweep_deletes_iff FILE_TTL_MS 1000000 [] _ "uploads/stale.pdf"
    { isFile := true, mtimeMs := 0, ctimeMs := 0 } (by decide)⟩

/-- C9: when the engine exits non-zero but an output artifact exists at the
resolved output path, the failure branch schedules that artifact for deletion
too, so the failed job leaves no output file outside the scheduling map. -/
theorem failed_job_output_scheduled (ex : String → Bool) (sz : String → Int)
    (m : SchedMap) (ins : List String) (outPath outName stderrBuf : String)
    (code : Int) (hc : code ≠ 0) (hex : ex outPath = true) (hp : outPath ≠ "") :
    ((executeTaskClose ex sz m ins outPath outName code stderrBuf).2).contains outPath
      = true := by
  unfold executeTaskClose
  simp only [hc, if_neg hc, hex, if_pos]
  exact contains_scheduleDeletion_self ex _ outPath hp hex

/-- Witness for C9 at a concrete failed job whose output file exists. -/
theorem failed_job_output_scheduled_witness :
    (1 : Int) ≠ 0 ∧ (fun _ : String => true) "uploads/out_9.pdf" = true
    ∧ "uploads/out_9.pdf" ≠ ""
    ∧ ((executeTaskClose (fun _ => true) (fun _ => 7) [] ["uploads/in_9.pdf"]
          "uploads/out_9.pdf" "out_9.pdf" 1 "boom").2).contains "uploads/out_9.pdf" = true :=
  ⟨by decide, rfl, by decide,
    failed_job_output_scheduled (fun _ => true) (fun _ => 7) [] ["uploads/in_9.pdf"]
      "uploads/out_9.pdf" "out_9.pdf" "boom" 1 (by decide) rfl (by decide)⟩

/-- C2 (divergence): a `pdf-to-doc` submission carrying a present file and an
EMPTY `secretKey`. The queue gateway (server2.js `/convert`) enqueues the job
anyway, with `secretKey` defaulted to the empty string, while the synchronous
server (server.js `/convert`) rejects the same request with
"Missing encryption key" before running anything. -/
theorem convert_empty_secret_key_divergence :
    convertHandlerQueued { hasFile := true
                           filePath := "uploads/1-a.pdf"
                           tool := none
                           secretKey := some ""
                           socketId := some "sock1"
                           grayscale := none
                           dpi := none }
      = .queued { inputPath := "uploads/1-a.pdf"
                  tool := "pdf2doc"
                  secretKey := ""
                  socketId := some "sock1" }
    ∧ convertHandlerSync { hasFile := true
                           filePath := "uploads/1-a.pdf"
                           tool := none
                           secretKey := some ""
                           socketId := some "sock1"
                           grayscale := none
                           dpi := none } 7
      = .badRequest "Missing encryption key" := by
  exact ⟨by decide, by decide⟩

/-- C3 counterexample: a queue-level `failed` event is only logged by the
bridge — it is forwarded to no client channel, so a post-enqueue job failure
never reaches the client as a terminal failure event through the bridge. -/
theorem failed_event_not_forwarded :
    bridge (.failed "Exit code 1: tesseract not found") = [] := rfl

/-- C3 (amended): the bridge forwards `completed` events as
`conversion-finished` and `progress` events as `conversion-status` to the
channel named by the event's `socketId` (when that token is truthy), but a
`failed` event produces no forward at all; the error text of a failed job
reaches the client only as the `conversion-status` progress message
`"Error: ..."` that the worker's catch branch publishes before rethrowing. -/
theorem bridge_forwarding (sid : String) (h : sid ≠ "") (res : WorkerResult)
    (msg reason errMsg : String) :
    bridge (.completed (some sid) res)
        = [{ socketId := sid, eventName := "conversion-finished" }]
    ∧ bridge (.progress (some sid) msg)
        = [{ socketId := sid, eventName := "conversion-status" }]
    ∧ bridge (.failed reason) = []
    ∧ bridge (.progress (some sid) (workerCatchMessage errMsg))
        = [{ socketId := sid, eventName := "conversion-status" }] := by
  refine ⟨?_, ?_, rfl, ?_⟩ <;> simp [bridge, h]

/-- Witness for C3 (amended) at a concrete socket id and messages. -/
theorem bridge_forwarding_witness :
    ("sock2" : String) ≠ ""
    ∧ (bridge (.completed (some "sock2")
          { status := "success", downloadUrl := "/download/x.pdf"
            duration := "0.10", file := "x.pdf" })
          = [{ socketId := "sock2", eventName := "conversion-finished" }]
       ∧ bridge (.progress (some "sock2") "Converting page 1")
          = [{ socketId := "sock2", eventName := "conversion-status" }]
       ∧ bridge (.failed "Exit code 2: boom") = []
       ∧ bridge (.progress (some "sock2") (workerCatchMessage "Exit code 2: boom"))
          = [{ socketId := "sock2", eventName := "conversion-status" }]) :=
  ⟨by decide, bridge_forwarding "sock2" (by decide)
    { status := "success", downloadUrl := "/download/x.pdf"
      duration := "0.10", file := "x.pdf" }
    "Converting page 1" "Exit code 2: boom" "Exit code 2: boom"⟩

/-- The duration field of the worker's settled success value, as an optional
JSON field: the code always produces a string (`"0.00"` when the token is
absent). -/
def codeDurationField (fullOutput : String) : Option String :=
  match runPythonClose 0 fullOutput "" with
  | .resolved d => some d
  | .rejected _ => none

/-- Modelled from the claim's words, for comparison with `codeDurationField`:
a duration field that is present exactly when the completion-duration token
occurs in the accumulated output, and omitted otherwise. -/
def claimedDurationField (fullOutput : String) : Option String :=
  (wonInMatch fullOutput.toList).map List.asString

/-- C4 counterexample: on an accumulated output with no duration token the
code's success value still carries a duration field, defaulted to `"0.00"`,
whereas the claim says the field is omitted. -/
theorem duration_absent_not_omitted :
    codeDurationField "conversion done" = some "0.00"
    ∧ claimedDurationField "conversion done" = none := by
  exact ⟨by decide, by decide⟩

/-- C4 (amended): after a zero-exit close the accumulated output is scanned
for the `won in <number>s` token; a present token's captured value becomes the
duration, an output of the shape `"won in " ++ n ++ "s"` with a nonempty
numeric `n` yields exactly `n`, and an absent token yields the default
duration `"0.00"` — with the promise still resolved, never rejected. -/
theorem duration_token_scan (out n : String) (hn : n.toList ≠ [])
    (hall : ∀ c ∈ n.toList, isDurChar c = true) :
    (∀ dl, wonInMatch out.toList = some dl →
        runPythonClose 0 out "" = .resolved dl.asString)
    ∧ (wonInMatch out.toList = none → runPythonClose 0 out "" = .resolved "0.00")
    ∧ wonInMatch ("won in " ++ n ++ "s").toList = some n.toList := by
  refine ⟨?_, ?_, ?_⟩
  · intro dl hdl
    have hdl' : wonInMatch out.data = some dl := hdl
    simp [runPythonClose, hdl']
  · intro hnone
    have hnone' : wonInMatch out.data = none := hnone
    simp [runPythonClose, hnone']
  · have hsplit : ("won in " ++ n ++ "s").toList
        = "won in ".toList ++ (n.toList ++ ['s']) := by
      simp [String.toList]
    have hrun := takeDurRun_append n.toList ['s'] hall
      (by intro c hc; cases hc; decide)
    have hrun' : takeDurRun (n.data ++ ['s']) = (n.data, ['s']) := hrun
    have hn' : n.data ≠ [] := hn
    have hmatch : matchWonInAt ("won in ".toList ++ (n.toList ++ ['s']))
        = some n.toList := by
      unfold matchWonInAt
      rw [stripToken_append]
      simp [hrun', List.isEmpty_iff, hn']
    rw [hsplit]
    exact wonInMatch_of_matchWonInAt _ _ hmatch

/-- Witness for C4 (amended) at `n = "1.23"` and a token-free output. -/
theorem duration_token_scan_witness :
    ("1.23" : String).toList ≠ []
    ∧ (∀ c ∈ ("1.23" : String).toList, isDurChar c = true)
    ∧ wonInMatch ("won in " ++ "1.23" ++ "s").toList = some ("1.23" : String).toList :=
  ⟨by decide, by decide,
    (duration_token_scan "no token here" "1.23" (by decide) (by decide)).2.2⟩

/-- C7: on a non-zero exit code the outcome is a failure whose client-visible
detail is the fixed failure text followed by the first 1000 characters of the
captured stderr; every nonempty input path whose file exists ends up in the
scheduling map; and the worker-side executor likewise rejects with a
diagnostic built from the first 200 characters of stderr. -/
theorem nonzero_exit_failure_detail (ex : String → Bool) (sz : String → Int)
    (m : SchedMap) (ins : List String) (outPath outName stderrBuf out p : String)
    (code : Int) (hc : code ≠ 0) (hs : stderrBuf ≠ "")
    (hp : p ∈ ins) (hpe : p ≠ "") (hpex : ex p = true) :
    (executeTaskClose ex sz m ins outPath outName code stderrBuf).1.status = "failure"
    ∧ (executeTaskClose ex sz m ins outPath outName code stderrBuf).1.errorDetail
        = some ("Engine failed to process. Details: " ++ stderrBuf.take 1000)
    ∧ ((executeTaskClose ex sz m ins outPath outName code stderrBuf).2).contains p = true
    ∧ runPythonClose code out stderrBuf
        = .rejected ("Exit code " ++ toString code ++ ": " ++ stderrBuf.take 200) := by
  have h1 : ((ins.foldl (scheduleDeletion ex) m).contains p = true) :=
    contains_foldl_scheduleDeletion_self ex ins m p hp hpe hpex
  refine ⟨?_, ?_, ?_, ?_⟩
  · simp [executeTaskClose, hc]
  · simp [executeTaskClose, hc, hs]
  · unfold executeTaskClose
    simp only [if_neg hc]
    by_cases hexo : ex outPath = true
    · simpa [hexo] using contains_scheduleDeletion_mono ex _ outPath p h1
    · simpa [hexo] using h1
  · simp [runPythonClose, hc]

/-- Witness for C7: exit code 1 with stderr "tesseract not found" and an
existing input file. -/
theorem nonzero_exit_failure_detail_witness :
    (1 : Int) ≠ 0 ∧ ("tesseract not found" : String) ≠ ""
    ∧ "uploads/in7.png" ∈ ["uploads/in7.png"] ∧ ("uploads/in7.png" : String) ≠ ""
    ∧ (fun _ : String => true) "uploads/in7.png" = true
    ∧ ((executeTaskClose (fun _ => true) (fun _ => 0) [] ["uploads/in7.png"]
          "uploads/ocr_7.txt" "ocr_7.txt" 1 "tesseract not found").1.status = "failure"
       ∧ (executeTaskClose (fun _ => true) (fun _ => 0) [] ["uploads/in7.png"]
          "uploads/ocr_7.txt" "ocr_7.txt" 1 "tesseract not found").1.errorDetail
          = some ("Engine failed to process. Details: "
              ++ ("tesseract not found" : String).take 1000)
       ∧ ((executeTaskClose (fun _ => true) (fun _ => 0) [] ["uploads/in7.png"]
          "uploads/ocr_7.txt" "ocr_7.txt" 1 "tesseract not found").2).contains
            "uploads/in7.png" = true
       ∧ runPythonClose 1 "partial output" "tesseract not found"
          = .rejected ("Exit code " ++ toString (1 : Int) ++ ": "
              ++ ("tesseract not found" : String).take 200)) :=
  ⟨by decide, by decide, by decide, by decide, rfl,
    nonzero_exit_failure_detail (fun _ => true) (fun _ => 0) [] ["uploads/in7.png"]
      "uploads/ocr_7.txt" "ocr_7.txt" "tesseract not found" "partial output"
      "uploads/in7.png" 1 (by decide) (by decide) (by decide) (by decide) rfl⟩

/-- C8: for a `compress-pdf` submission with a file, the enqueued job keeps
the (defaulted) options; the worker invokes the engine with the fixed
positional argv `[inputPath, outputPath, grayscale, strip_meta, dpi]`; the
output filename is `compressed_<ts>.pdf` (both in the worker and in the
synchronous server's handler); and the success return carries status
`success` with download reference `/download/compressed_<ts>.pdf`. -/
theorem compress_pdf_success_contract (r : ConvertRequest) (ts : Nat)
    (hf : r.hasFile = true) (ip g d dur : String) (sid : Option String) :
    compressPdfGateway r
        = some { inputPath := r.filePath
                 socketId := r.socketId
                 grayscale := jsOr r.grayscale "false"
                 dpi := jsOr r.dpi "150" }
    ∧ (workerCompressPdf ip g d ts).args
        = [ip, joinUpload ("compressed_" ++ toString ts ++ ".pdf"), g, "true", d]
    ∧ (workerCompressPdf ip g d ts).outputFilename
        = "compressed_" ++ toString ts ++ ".pdf"
    ∧ (compressPdfHandler r ts).map TaskSpec.args
        = some [r.filePath, joinUpload ("compressed_" ++ toString ts ++ ".pdf"),
                jsOr r.grayscale "false", "true", jsOr r.dpi "150"]
    ∧ (workerSuccessReturn sid ("compressed_" ++ toString ts ++ ".pdf") dur).result.status
        = "success"
    ∧ (workerSuccessReturn sid ("compressed_" ++ toString ts ++ ".pdf") dur).result.downloadUrl
        = "/download/" ++ ("compressed_" ++ toString ts ++ ".pdf") := by
  refine ⟨?_, rfl, rfl, ?_, rfl, rfl⟩ <;>
    simp [compressPdfGateway, compressPdfHandler, hf]

/-- Witness for C8 at a concrete request (grayscale "true", dpi "100"). -/
theorem compress_pdf_success_contract_witness :
    ({ hasFile := true
       filePath := "uploads/a.pdf"
       tool := none
       secretKey := none
       socketId := some "s8"
       grayscale := some "true"
       dpi := some "100" } : ConvertRequest).hasFile = true
    ∧ (compressPdfGateway { hasFile := true
                            filePath := "uploads/a.pdf"
                            tool := none
                            secretKey := none
                            socketId := some "s8"
                            grayscale := some "true"
                            dpi := some "100" }
        = some { inputPath := "uploads/a.pdf"
                 socketId := some "s8"
                 grayscale := jsOr (some "true") "false"
                 dpi := jsOr (some "100") "150" }
       ∧ (workerCompressPdf "uploads/a.pdf" "true" "100" 1700000000000).args
          = ["uploads/a.pdf", joinUpload ("compressed_" ++ toString 1700000000000 ++ ".pdf"),
             "true", "true", "100"]
       ∧ (workerCompressPdf "uploads/a.pdf" "true" "100" 1700000000000).outputFilename
          = "compressed_" ++ toString 1700000000000 ++ ".pdf"
       ∧ (compressPdfHandler { hasFile := true
                               filePath := "uploads/a.pdf"
                               tool := none
                               secretKey := none
                               socketId := some "s8"
                               grayscale := some "true"
                               dpi := some "100" } 1700000000000).map TaskSpec.args
          = some ["uploads/a.pdf",
                  joinUpload ("compressed_" ++ toString 1700000000000 ++ ".pdf"),
                  jsOr (some "true") "false", "true", jsOr (some "100") "150"]
       ∧ (workerSuccessReturn (some "s8")
            ("compressed_" ++ toString 1700000000000 ++ ".pdf") "0.52").result.status
          = "success"
       ∧ (workerSuccessReturn (some "s8")
            ("compressed_" ++ toString 1700000000000 ++ ".pdf") "0.52").result.downloadUrl
          = "/download/" ++ ("compressed_" ++ toString 1700000000000 ++ ".pdf")) :=
  ⟨rfl,
    compress_pdf_success_contract
      { hasFile := true
        filePath := "uploads/a.pdf"
        tool := none
        secretKey := none
        socketId := some "s8"
        grayscale := some "true"
        dpi := some "100" } 1700000000000 rfl
      "uploads/a.pdf" "true" "100" "0.52" (some "s8")⟩

/-- C10: an absent `grayscale` defaults to the string `"false"`, an absent
`dpi` defaults to the string `"150"` (both in the queue gateway and in the
synchronous handler), and the `strip_meta` argv slot (index 3) is the
constant `"true"` for every request. -/
theorem compress_pdf_option_defaults (r : ConvertRequest) (ts : Nat)
    (hf : r.hasFile = true) (ip g d : String) :
    (r.grayscale = none →
      (compressPdfGateway r).map CompressPdfJob.grayscale = some "false")
    ∧ (r.dpi = none → (compressPdfGateway r).map CompressPdfJob.dpi = some "150")
    ∧ (r.grayscale = none →
      (compressPdfHandler r ts).map (fun t => t.args[2]?) = some (some "false"))
    ∧ (r.dpi = none →
      (compressPdfHandler r ts).map (fun t => t.args[4]?) = some (some "150"))
    ∧ (compressPdfHandler r ts).map (fun t => t.args[3]?) = some (some "true")
    ∧ (workerCompressPdf ip g d ts).args[3]? = some "true" := by
  refine ⟨?_, ?_, ?_, ?_, ?_, rfl⟩ <;>
    first
    | (intro h0; simp [compressPdfGateway, compressPdfHandler, hf, jsOr, h0])
    | simp [compressPdfHandler, hf]

/-- Witness for C10 at a request with both options absent. -/
theorem compress_pdf_option_defaults_witness :
    ({ hasFile := true
       filePath := "uploads/b.pdf"
       tool := none
       secretKey := none
       socketId := none
       grayscale := none
       dpi := none } : ConvertRequest).hasFile = true
    ∧ ((({ hasFile := true
           filePath := "uploads/b.pdf"
           tool := none
           secretKey := none
           socketId := none
           grayscale := none
           dpi := none } : ConvertRequest).grayscale = none →
          (compressPdfGateway { hasFile := true
                                filePath := "uploads/b.pdf"
                                tool := none
                                secretKey := none
                                socketId := none
                                grayscale := none
                                dpi := none }).map CompressPdfJob.grayscale = some "false")
       ∧ (({ hasFile := true
             filePath := "uploads/b.pdf"
             tool := none
             secretKey := none
             socketId := none
             grayscale := none
             dpi := none } : ConvertRequest).dpi = none →
          (compressPdfGateway { hasFile := true
                                filePath := "uploads/b.pdf"
                                tool := none
                                secretKey := none
                                socketId := none
                                grayscale := none
                                dpi := none }).map CompressPdfJob.dpi = some "150")
       ∧ (({ hasFile := true
             filePath := "uploads/b.pdf"
             tool := none
             secretKey := none
             socketId := none
             grayscale := none
             dpi := none } : ConvertRequest).grayscale = none →
          (compressPdfHandler { hasFile := true
                                filePath := "uploads/b.pdf"
                                tool := none
                                secretKey := none
                                socketId := none
                                grayscale := none
                                dpi := none } 42).map (fun t => t.args[2]?)
            = some (some "false"))
       ∧ (({ hasFile := true
             filePath := "uploads/b.pdf"
             tool := none
             secretKey := none
             socketId := none
             grayscale := none
             dpi := none } : ConvertRequest).dpi = none →
          (compressPdfHandler { hasFile := true
                                filePath := "uploads/b.pdf"
                                tool := none
                                secretKey := none
                                socketId := none
                                grayscale := none
                                dpi := none } 42).map (fun t => t.args[4]?)
            = some (some "150"))
       ∧ (compressPdfHandler { hasFile := true
                               filePath := "uploads/b.pdf"
                               tool := none
                               secretKey := none
                               socketId := none
                               grayscale := none
                               dpi := none } 42).map (fun t => t.args[3]?)
          = some (some "true")
       ∧ (workerCompressPdf "uploads/b.pdf" "false" "150" 42).args[3]? = some "true") :=
  ⟨rfl,
    compress_pdf_option_defaults
      { hasFile := true
        filePath := "uploads/b.pdf"
        tool := none
        secretKey := none
        socketId := none
        grayscale := none
        dpi := none } 42 rfl "uploads/b.pdf" "false" "150"⟩

end Converter
